import Mathlib

/-!
Verification of `mlvtool/ipynb_to_python.py`: a shallow embedding of the
notebook-to-python conversion glue (filter functions, `export`, and the
`IPynbToPython.run` command) together with theorems about its behaviour.

External calls (the nbconvert exporter, configuration loading, path helpers,
the docstring extraction/parsing helpers living outside the given source file)
are modelled as explicit environment parameters, so every result is proved
for all behaviours of those externals unless stated otherwise.
-/

/-- A Python value that is either a string or a list of strings; needed because
`handle_params` constructs `DocstringWrapper([], "")` on one path (a list in the
first field) and a string on the other. -/
inductive PyStrOrList where
  | str (s : String)
  | list (l : List String)
deriving DecidableEq

/-- The `DocstringWrapper` namedtuple: `("docstring", "params")`. -/
structure DocstringWrapper where
  docstring : PyStrOrList
  params : String
deriving DecidableEq

/-- A notebook cell (`nbformat.NotebookNode`) restricted to the fields the code
reads: `cell_type` and `source`. -/
structure NotebookNode where
  cell_type : String
  source : String
deriving DecidableEq

/-- Embedding of `is_code_cell(cell)`: `cell.cell_type == "code"`. -/
def is_code_cell (cell : NotebookNode) : Bool :=
  cell.cell_type == "code"

/-- One parameter as returned by the docstring parser: `arg_name` and
`type_name` (empty string standing for a missing/falsy type name). -/
structure DocstringParam where
  arg_name : String
  type_name : String
deriving DecidableEq

/-- Result of parsing a docstring: the list of parameters. -/
structure ParsedDocstring where
  params : List DocstringParam
deriving DecidableEq

/-- Modelled from the spec: the docstring helpers `extract_docstring`
(`mlvtool.docstring_helpers.extract`) and `parse_docstring`
(`mlvtool.docstring_helpers.parse`) are repository code not present under the
sources given here; the spec describes them only as a thin delegation to an
external docstring-parsing library.  They are therefore kept abstract as an
environment of functions, and the theorems below hold for every such
environment. -/
structure DocstringEnv where
  extract_docstring : String → String
  parse_docstring : String → ParsedDocstring

/-- Python string truthiness: a string is falsy exactly when it is empty. -/
def pyFalsyStr (s : String) : Bool :=
  s == ""

/-- Python truthiness of an optional string (`None` and the empty string are falsy). -/
def pyFalsyOpt (o : Option String) : Bool :=
  match o with
  | none => true
  | some s => s == ""

/-- Python `a or b` for an optional string `a` and string `b`. -/
def pyOrOpt (o : Option String) (d : String) : String :=
  match o with
  | none => d
  | some s => if s == "" then d else s

/-- Python substring membership `needle in hay` on strings. -/
def pyInStr (needle hay : String) : Bool :=
  decide (needle.data <:+: hay.data)

/-- Embedding of `get_param_as_python_method_format(docstring_str)`: parse the docstring and
join every `arg_name` (with a colon and the type appended when the type name is truthy)
with a comma-space separator. -/
def get_param_as_python_method_format (E : DocstringEnv) (docstring_str : String) : String :=
  let params := (E.parse_docstring docstring_str).params.map fun p =>
    p.arg_name ++ (if p.type_name == "" then "" else ": " ++ p.type_name)
  String.intercalate ", " params

/-- Embedding of `extract_docstring_and_param(cell_content)`: extract the docstring, format
the parameters, and wrap the docstring in triple quotes. -/
def extract_docstring_and_param (E : DocstringEnv) (cell_content : String) : DocstringWrapper :=
  let docstring := E.extract_docstring cell_content
  let params := get_param_as_python_method_format E docstring
  { docstring := PyStrOrList.str ("\"\"\"\n" ++ docstring ++ "\n\"\"\""),
    params := params }

/-- Embedding of `handle_params(cells)`: find the first code cell; if none, return
`DocstringWrapper([], "")`; otherwise extract docstring and parameters from it
and, when the parameter string is truthy, remove that cell from the list.  The
Python function mutates `cells` in place, so the embedding returns the wrapper
together with the list as the caller sees it afterwards. -/
def handle_params (E : DocstringEnv) (cells : List NotebookNode) :
    DocstringWrapper × List NotebookNode :=
  match cells.find? is_code_cell with
  | none => ({ docstring := PyStrOrList.list [], params := "" }, cells)
  | some first_code_cell =>
    let docstring_wrapper := extract_docstring_and_param E first_code_cell.source
    if docstring_wrapper.params == "" then
      (docstring_wrapper, cells)
    else
      (docstring_wrapper, cells.erase first_code_cell)

/-- The `resources` dict as read by `filter_no_effect`: only the
`ignore_keys` entry matters; `none` models the key being absent. -/
structure Resource where
  ignore_keys : Option (List String)

/-- Embedding of `filter_no_effect(cell_content, resource)`: return the empty string as soon as one of
the ignore keywords occurs in the cell content, else the content unchanged.
`default_ignore_key` stands for the module constant `DEFAULT_IGNORE_KEY`
imported from `mlvtool.conf.conf` (not among the given sources); its value is
irrelevant to the theorems. -/
def filter_no_effect (default_ignore_key : String) (cell_content : String)
    (resource : Resource) : String :=
  if (resource.ignore_keys.getD [default_ignore_key]).any
      (fun keyword => pyInStr keyword cell_content) then ""
  else cell_content

/-- The loaded configuration (`MlVToolConf`) restricted to the fields read by
`run` and `export`: `path` (empty string for the falsy "no configuration file"
case) and `ignore_keys`. -/
structure MlVToolConf where
  path : String
  ignore_keys : List String

/-- A Python exception raised by external code (the nbconvert exporter). -/
inductive PyError where
  | exc (msg : String)
deriving DecidableEq

/-- The domain-specific exception type `MlVToolException`: raised either with a
descriptive message or by wrapping an underlying exception. -/
inductive MlVToolException where
  | message (msg : String)
  | wrapped (e : PyError)
deriving DecidableEq

/-- Filesystem state: file contents by path and existing directories. -/
structure FS where
  files : String → Option String
  dirs : String → Bool

/-- Embedding of `os.path.exists`: true when a file or directory exists at the path. -/
def FS.existsPath (fs : FS) (p : String) : Bool :=
  (fs.files p).isSome || fs.dirs p

/-- Embedding of `os.makedirs(d, exist_ok=True)` restricted to recording `d` as existing. -/
def FS.mkdirs (fs : FS) (d : String) : FS :=
  { fs with dirs := fun p => p == d || fs.dirs p }

/-- Embedding of a write through `open(p, "w")`: create or overwrite the file at `p`. -/
def FS.write (fs : FS) (p c : String) : FS :=
  { fs with files := fun q => if q == p then some c else fs.files q }

/-- The externals called by `run` and `export`: path helpers and configuration
loading from `mlvtool.conf.conf`, `os.path.dirname`, and the nbconvert
`from_filename` of the nbconvert exporter (either the rendered script or raising
some exception). -/
structure RunEnv where
  get_work_directory : String → String
  get_conf_file_default_path : String → String
  load_conf_or_default : String → String → MlVToolConf
  get_script_output_path : String → MlVToolConf → String
  dirname : String → String
  from_filename : String → Resource → Except PyError String

/-- Embedding of `export(input_notebook_path, output_path, conf)`: run the exporter with
an `ignore_keys` resource entry holding `conf.ignore_keys`; wrap any exception in
`MlVToolException`; do nothing on an empty script; otherwise create the output
directory and write the script.  Returns the filesystem as left behind,
together with the exception propagated to the caller, if any. -/
def «export» (env : RunEnv) (input_notebook_path output_path : String)
    (conf : MlVToolConf) (fs : FS) : FS × Option MlVToolException :=
  match env.from_filename input_notebook_path { ignore_keys := some conf.ignore_keys } with
  | Except.error e => (fs, some (MlVToolException.wrapped e))
  | Except.ok output_script =>
    if output_script == "" then (fs, none)
    else ((fs.mkdirs (env.dirname output_path)).write output_path output_script, none)

/-- The parsed command-line arguments consumed by `IPynbToPython.run`. -/
structure Args where
  working_directory : Option String
  conf_path : Option String
  force : Bool
  notebook : String
  output : Option String

/-- The configuration resolved by `run`:
`load_conf_or_default(args.conf_path or get_conf_file_default_path(wd), wd)`
where `wd = args.working_directory or get_work_directory(args.notebook)`. -/
def resolvedConf (env : RunEnv) (args : Args) : MlVToolConf :=
  let work_directory := pyOrOpt args.working_directory (env.get_work_directory args.notebook)
  let conf_path := pyOrOpt args.conf_path (env.get_conf_file_default_path work_directory)
  env.load_conf_or_default conf_path work_directory

/-- The output path resolved by `run`:
`args.output or get_script_output_path(args.notebook, conf)`. -/
def resolvedOutput (env : RunEnv) (args : Args) : String :=
  pyOrOpt args.output (env.get_script_output_path args.notebook (resolvedConf env args))

/-- Embedding of `IPynbToPython.run` after argument parsing: check the `--output` /
configuration precondition, resolve the output path, check the `--force` /
existing-file precondition, then export.  Returns the filesystem as left
behind and the `MlVToolException` raised, if any. -/
def IPynbToPython.run (env : RunEnv) (args : Args) (fs : FS) :
    FS × Option MlVToolException :=
  let conf := resolvedConf env args
  if pyFalsyStr conf.path && pyFalsyOpt args.output then
    (fs, some (MlVToolException.message "Parameter --output is mandatory if no conf provided"))
  else
    let output := resolvedOutput env args
    if !args.force && fs.existsPath output then
      (fs, some (MlVToolException.message
        ("Output file " ++ output ++ " already exists, use --force option to overwrite it")))
    else
      «export» env args.notebook output conf fs

/-- Modelled from the spec: the argument-parsing layer (`CommandHelper` and
`ArgumentBuilder` from `mlvtool.cmd`, not among the given sources, over
argparse).  `run` declares a required `--notebook` argument and optional
working-directory, configuration-path, force and `--output` arguments; a parse
fails exactly when a required argument is missing. -/
structure CliInput where
  working_directory : Option String
  conf_path : Option String
  force : Bool
  notebook : Option String
  output : Option String

/-- A command-line parse error: a required argument was not supplied. -/
inductive ParseError where
  | missingRequired (name : String)
deriving DecidableEq

/-- Modelled from the spec: parsing the command line declared by
`IPynbToPython.run`.  Only `--notebook` is required; every other argument
defaults (`None` for paths, `False` for the flag). -/
def parseCli (input : CliInput) : Except ParseError Args :=
  match input.notebook with
  | none => Except.error (ParseError.missingRequired "--notebook")
  | some nb =>
    Except.ok { working_directory := input.working_directory,
                conf_path := input.conf_path,
                force := input.force,
                notebook := nb,
                output := input.output }

/-- A docstring environment for concrete evaluations: extraction finds no
docstring and parsing finds no parameters. -/
def emptyDocstringEnv : DocstringEnv where
  extract_docstring := fun _ => ""
  parse_docstring := fun _ => { params := [] }

/-- A docstring environment for concrete evaluations whose parser always finds
one typed parameter. -/
def oneParamDocstringEnv : DocstringEnv where
  extract_docstring := fun s => s
  parse_docstring := fun _ => { params := [{ arg_name := "x", type_name := "int" }] }

/-- An empty filesystem for concrete evaluations. -/
def emptyFs : FS where
  files := fun _ => none
  dirs := fun _ => false

/-- A filesystem for concrete evaluations where the resolved output file
already exists. -/
def witnessFsWithOutput : FS where
  files := fun p => if p == "out/script.py" then some "old contents" else none
  dirs := fun _ => false

/-- A run environment for concrete evaluations: a configuration file is found
and the exporter succeeds. -/
def witnessEnv : RunEnv where
  get_work_directory := fun _ => "wd"
  get_conf_file_default_path := fun _ => "wd/.mlvtool"
  load_conf_or_default := fun _ _ => { path := "conf.json", ignore_keys := ["# No effect"] }
  get_script_output_path := fun _ _ => "out/script.py"
  dirname := fun _ => "out"
  from_filename := fun _ _ => Except.ok "script body"

/-- Variant of `witnessEnv` with no configuration file resolved. -/
def witnessEnvNoConf : RunEnv :=
  { witnessEnv with load_conf_or_default := fun _ _ => { path := "", ignore_keys := [] } }

/-- Variant of `witnessEnv` with an exporter that raises. -/
def witnessEnvError : RunEnv :=
  { witnessEnv with from_filename := fun _ _ => Except.error (PyError.exc "boom") }

/-- Variant of `witnessEnv` with an exporter that produces an empty script. -/
def witnessEnvEmptyScript : RunEnv :=
  { witnessEnv with from_filename := fun _ _ => Except.ok "" }

/-- The command-line arguments used by concrete evaluations: only the notebook
is given, `--force` absent. -/
def witnessArgs : Args where
  working_directory := none
  conf_path := none
  force := false
  notebook := "nb.ipynb"
  output := none

/-- If `find?` returns a hit, the list splits as a prefix of misses, the hit,
and a remainder. -/
theorem find?_split {α : Type} (p : α → Bool) :
    ∀ {l : List α} {c : α}, l.find? p = some c →
      ∃ pre rest, l = pre ++ c :: rest ∧ (∀ x ∈ pre, p x = false) ∧ p c = true := by
  intro l
  induction l with
  | nil => intro c h; cases h
  | cons a t ih =>
    intro c h
    cases hpa : p a with
    | true =>
      have ha : some a = some c := by
        rw [List.find?_cons_of_pos _ hpa] at h
        exact h
      cases ha
      exact ⟨[], t, rfl, ⟨by simp, hpa⟩⟩
    | false =>
      have h2 : t.find? p = some c := by
        rw [List.find?_cons_of_neg _ (by simp [hpa])] at h
        exact h
      obtain ⟨pre, rest, hl, hpre, hc⟩ := ih h2
      refine ⟨a :: pre, rest, by simp [hl], ?_, hc⟩
      intro x hx
      rcases List.mem_cons.mp hx with rfl | hx
      · exact hpa
      · exact hpre x hx

/-- Erasing the element found by `find?` from its split removes exactly that
element: the prefix of misses is untouched. -/
theorem erase_split_of_pre_misses {α : Type} [DecidableEq α] (p : α → Bool)
    (pre rest : List α) (c : α)
    (hpre : ∀ x ∈ pre, p x = false) (hc : p c = true) :
    (pre ++ c :: rest).erase c = pre ++ rest := by
  induction pre with
  | nil => simp [List.erase_cons_head]
  | cons a t ih =>
    have ha : a ≠ c := by
      intro h
      have := hpre a (List.mem_cons_self a t)
      rw [h, hc] at this
      cases this
    have ht : (t ++ c :: rest).erase c = t ++ rest :=
      ih fun x hx => hpre x (List.mem_cons_of_mem _ hx)
    simp [List.erase_cons, ha, ht]

/-- C3: whenever the `from_filename` call of the exporter raises, `export` wraps
that exception in `MlVToolException` (chaining the original) and propagates it;
conversely, every exception `export` lets escape is such a wrapped one, so no
other exception type escapes the conversion step. -/
theorem export_wraps_conversion_errors (env : RunEnv) (input output_path : String)
    (conf : MlVToolConf) (fs : FS) :
    (∀ e, env.from_filename input { ignore_keys := some conf.ignore_keys } = Except.error e →
        «export» env input output_path conf fs = (fs, some (MlVToolException.wrapped e))) ∧
    (∀ err, («export» env input output_path conf fs).2 = some err →
        ∃ e, env.from_filename input { ignore_keys := some conf.ignore_keys } = Except.error e ∧
          err = MlVToolException.wrapped e) := by
  constructor
  · intro e he
    unfold «export»
    rw [he]
  · intro err herr
    unfold «export» at herr
    rcases hres : env.from_filename input { ignore_keys := some conf.ignore_keys } with e | s
    · rw [hres] at herr
      exact ⟨e, rfl, by injection herr with h; exact h.symm⟩
    · rw [hres] at herr
      by_cases hs : s == "" <;> simp [hs] at herr

/-- C3 witness: a concrete erroring exporter. -/
theorem export_wraps_conversion_errors_witness :
    «export» witnessEnvError "nb.ipynb" "out/script.py"
        { path := "conf.json", ignore_keys := ["# No effect"] } emptyFs
      = (emptyFs, some (MlVToolException.wrapped (PyError.exc "boom"))) :=
  (export_wraps_conversion_errors witnessEnvError "nb.ipynb" "out/script.py"
    { path := "conf.json", ignore_keys := ["# No effect"] } emptyFs).1 (PyError.exc "boom") rfl

/-- C8: when the exporter produces an empty (falsy) script, `export` returns
without creating any directory or writing any file: the filesystem is returned
unchanged and no exception is raised. -/
theorem export_empty_script_no_write (env : RunEnv) (input output_path : String)
    (conf : MlVToolConf) (fs : FS)
    (h : env.from_filename input { ignore_keys := some conf.ignore_keys } = Except.ok "") :
    «export» env input output_path conf fs = (fs, none) := by
  unfold «export»
  rw [h]
  simp

/-- C8 witness: a concrete exporter returning an empty script leaves a concrete
filesystem untouched. -/
theorem export_empty_script_no_write_witness :
    «export» witnessEnvEmptyScript "nb.ipynb" "out/script.py"
        { path := "conf.json", ignore_keys := ["# No effect"] } witnessFsWithOutput
      = (witnessFsWithOutput, none) :=
  export_empty_script_no_write witnessEnvEmptyScript "nb.ipynb" "out/script.py"
    { path := "conf.json", ignore_keys := ["# No effect"] } witnessFsWithOutput rfl

/-- C2: when no configuration file path is resolved (`conf.path` empty) and the
`--output` argument is absent, `run` raises `MlVToolException` with the message
that `--output` is mandatory, and the filesystem is untouched (no conversion
occurs). -/
theorem run_missing_output_raises (env : RunEnv) (args : Args) (fs : FS)
    (h1 : (resolvedConf env args).path = "")
    (h2 : args.output = none) :
    IPynbToPython.run env args fs =
      (fs, some (MlVToolException.message "Parameter --output is mandatory if no conf provided")) := by
  unfold IPynbToPython.run
  simp [pyFalsyStr, pyFalsyOpt, h1, h2]

/-- C2 witness: concrete environment with no configuration and no `--output`. -/
theorem run_missing_output_raises_witness :
    IPynbToPython.run witnessEnvNoConf witnessArgs emptyFs =
      (emptyFs, some (MlVToolException.message "Parameter --output is mandatory if no conf provided")) :=
  run_missing_output_raises witnessEnvNoConf witnessArgs emptyFs rfl rfl

/-- C1: when the configuration/`--output` precondition passes, the resolved
output file already exists, and `--force` is not given, `run` raises
`MlVToolException` with a descriptive message and the filesystem is untouched
(no conversion or write is attempted). -/
theorem run_existing_output_raises (env : RunEnv) (args : Args) (fs : FS)
    (h1 : (pyFalsyStr (resolvedConf env args).path && pyFalsyOpt args.output) = false)
    (h2 : args.force = false)
    (h3 : fs.existsPath (resolvedOutput env args) = true) :
    IPynbToPython.run env args fs =
      (fs, some (MlVToolException.message
        ("Output file " ++ resolvedOutput env args ++
         " already exists, use --force option to overwrite it"))) := by
  unfold IPynbToPython.run
  simp [h1, h2, h3]

/-- C1 witness: concrete environment where the resolved output file exists and
`--force` is absent. -/
theorem run_existing_output_raises_witness :
    IPynbToPython.run witnessEnv witnessArgs witnessFsWithOutput =
      (witnessFsWithOutput, some (MlVToolException.message
        ("Output file " ++ resolvedOutput witnessEnv witnessArgs ++
         " already exists, use --force option to overwrite it"))) :=
  run_existing_output_raises witnessEnv witnessArgs witnessFsWithOutput
    (by decide) rfl (by decide)

/-- C4: when the cell list splits into a (possibly empty) prefix of non-code
cells, a first code cell `c`, and any remainder, the docstring wrapper returned
by `handle_params` is `extract_docstring_and_param` applied to the source of
`c`: earlier non-code cells are skipped and the result does not depend on the
cells after `c`. -/
theorem handle_params_uses_first_code_cell (E : DocstringEnv)
    (pre rest : List NotebookNode) (c : NotebookNode)
    (hpre : ∀ x ∈ pre, is_code_cell x = false) (hc : is_code_cell c = true) :
    (handle_params E (pre ++ c :: rest)).1 = extract_docstring_and_param E c.source := by
  have hfind : (pre ++ c :: rest).find? is_code_cell = some c := by
    induction pre with
    | nil => simp [List.find?_cons_of_pos _ hc]
    | cons a t ih =>
      have ha := hpre a (List.mem_cons_self a t)
      rw [List.cons_append, List.find?_cons_of_neg _ (by simp [ha])]
      exact ih fun x hx => hpre x (List.mem_cons_of_mem _ hx)
  unfold handle_params
  rw [hfind]
  by_cases hp : (extract_docstring_and_param E c.source).params == "" <;> simp [hp]

/-- C4 witness: a markdown cell is skipped, parameters come from the first code
cell, and a later code cell is ignored. -/
theorem handle_params_uses_first_code_cell_witness :
    (handle_params oneParamDocstringEnv
      ([{ cell_type := "markdown", source := "intro" }] ++
        { cell_type := "code", source := "doc" } ::
          [{ cell_type := "code", source := "other" }])).1
      = extract_docstring_and_param oneParamDocstringEnv "doc" :=
  handle_params_uses_first_code_cell oneParamDocstringEnv
    [{ cell_type := "markdown", source := "intro" }]
    [{ cell_type := "code", source := "other" }]
    { cell_type := "code", source := "doc" } (by decide) (by decide)

/-- C5 counterexample: on the no-code-cell path `handle_params` constructs
`DocstringWrapper([], "")`, whose first field is an empty list, not a string,
so not every constructed `DocstringWrapper` holds a docstring string in its
first field. -/
theorem handle_params_no_code_cell_docstring_not_string :
    ¬ ∃ s : String,
      (handle_params emptyDocstringEnv []).1.docstring = PyStrOrList.str s := by
  rintro ⟨s, h⟩
  rw [show (handle_params emptyDocstringEnv []).1.docstring = PyStrOrList.list []
      from rfl] at h
  cases h

/-- When `find?` locates a code cell, the wrapper returned by `handle_params`
is the one extracted from that cell, whichever branch the parameter check
takes. -/
theorem handle_params_fst_of_find (E : DocstringEnv) (cells : List NotebookNode)
    (c : NotebookNode) (hc : cells.find? is_code_cell = some c) :
    (handle_params E cells).1 = extract_docstring_and_param E c.source := by
  unfold handle_params
  rw [hc]
  by_cases hp : (extract_docstring_and_param E c.source).params == "" <;> simp [hp]

/-- C5 amended: whenever a code cell is found, the first wrapper field is a
string (and its second field is always a string by construction); on the
no-code-cell path the record is `DocstringWrapper([], "")`, an empty list
paired with the empty string. -/
theorem docstring_wrapper_fields (E : DocstringEnv) (cells : List NotebookNode) :
    ((∃ c, cells.find? is_code_cell = some c) →
       ∃ s, (handle_params E cells).1.docstring = PyStrOrList.str s) ∧
    (cells.find? is_code_cell = none →
       (handle_params E cells).1 = { docstring := PyStrOrList.list [], params := "" }) := by
  constructor
  · rintro ⟨c, hc⟩
    rw [handle_params_fst_of_find E cells c hc]
    exact ⟨"\"\"\"\n" ++ E.extract_docstring c.source ++ "\n\"\"\"", rfl⟩
  · intro h
    unfold handle_params
    rw [h]

/-- C5 amended witness: with a code cell present the first field is a string. -/
theorem docstring_wrapper_fields_witness :
    ∃ s, (handle_params emptyDocstringEnv
      [{ cell_type := "code", source := "d" }]).1.docstring = PyStrOrList.str s :=
  (docstring_wrapper_fields emptyDocstringEnv
    [{ cell_type := "code", source := "d" }]).1 ⟨{ cell_type := "code", source := "d" }, by decide⟩

/-- C6: `handle_params` removes the first code cell from the cell list if and
only if the formatted-parameter string extracted from it is non-empty; when no
code cell is present, or the parameter string is empty, the list is returned to
the caller unchanged. -/
theorem handle_params_cells_effect (E : DocstringEnv) (cells : List NotebookNode) :
    (cells.find? is_code_cell = none → (handle_params E cells).2 = cells) ∧
    (∀ c, cells.find? is_code_cell = some c →
      ((extract_docstring_and_param E c.source).params = "" →
        (handle_params E cells).2 = cells) ∧
      ((extract_docstring_and_param E c.source).params ≠ "" →
        ∃ pre rest, cells = pre ++ c :: rest ∧ (∀ x ∈ pre, is_code_cell x = false) ∧
          (handle_params E cells).2 = pre ++ rest)) := by
  constructor
  · intro h
    unfold handle_params
    rw [h]
  · intro c hfind
    constructor
    · intro hp
      unfold handle_params
      rw [hfind]
      simp [hp]
    · intro hp
      obtain ⟨pre, rest, hl, hpre, hc⟩ := find?_split is_code_cell hfind
      refine ⟨pre, rest, hl, hpre, ?_⟩
      unfold handle_params
      rw [hfind]
      have hbeq : ((extract_docstring_and_param E c.source).params == "") = false := by
        simp [hp]
      simp only [hbeq, Bool.false_eq_true, if_false]
      rw [hl]
      exact erase_split_of_pre_misses is_code_cell pre rest c hpre hc

/-- C6 witness: with a parser finding no parameters, the cell list is returned
unchanged even though a code cell is present. -/
theorem handle_params_cells_effect_witness :
    (handle_params emptyDocstringEnv [{ cell_type := "code", source := "d" }]).2
      = [{ cell_type := "code", source := "d" }] :=
  ((handle_params_cells_effect emptyDocstringEnv
      [{ cell_type := "code", source := "d" }]).2
    { cell_type := "code", source := "d" } (by decide)).1 (by decide)

/-- C7: `filter_no_effect` returns the empty string when some keyword from the
ignore-keys entry of the resource (or the single default ignore key when that entry
is absent) occurs as a substring of the cell content, and returns the content
unchanged when no keyword does. -/
theorem filter_no_effect_spec (default_ignore_key cell_content : String)
    (resource : Resource) :
    ((∃ k ∈ resource.ignore_keys.getD [default_ignore_key],
        pyInStr k cell_content = true) →
      filter_no_effect default_ignore_key cell_content resource = "") ∧
    ((∀ k ∈ resource.ignore_keys.getD [default_ignore_key],
        pyInStr k cell_content = false) →
      filter_no_effect default_ignore_key cell_content resource = cell_content) := by
  constructor
  · rintro ⟨k, hk, hin⟩
    unfold filter_no_effect
    rw [if_pos]
    exact List.any_eq_true.mpr ⟨k, hk, hin⟩
  · intro h
    unfold filter_no_effect
    rw [if_neg]
    intro hany
    obtain ⟨k, hk, hin⟩ := List.any_eq_true.mp hany
    rw [h k hk] at hin
    cases hin

/-- C7 witness: a keyword occurrence from the default ignore key empties the
cell, and a clean cell passes through unchanged. -/
theorem filter_no_effect_spec_witness :
    filter_no_effect "# No effect" "x = 1  # No effect" { ignore_keys := none } = "" ∧
    filter_no_effect "# No effect" "x = 1" { ignore_keys := none } = "x = 1" :=
  ⟨(filter_no_effect_spec "# No effect" "x = 1  # No effect" { ignore_keys := none }).1
      ⟨"# No effect", by decide, by decide⟩,
   (filter_no_effect_spec "# No effect" "x = 1" { ignore_keys := none }).2 (by decide)⟩

/-- C9: the command-line surface requires the notebook argument and treats the
output path, configuration path, working directory and force flag as optional:
a parse with only a notebook succeeds (the optional arguments defaulting), and
any parse without a notebook fails. -/
theorem cli_notebook_required :
    parseCli { working_directory := none, conf_path := none, force := false,
               notebook := some "nb.ipynb", output := none }
      = Except.ok { working_directory := none, conf_path := none, force := false,
                    notebook := "nb.ipynb", output := none } ∧
    (∀ w c f o, parseCli { working_directory := w, conf_path := c, force := f,
                           notebook := none, output := o }
        = Except.error (ParseError.missingRequired "--notebook")) :=
  ⟨rfl, fun _ _ _ _ => rfl⟩

/-- C10 counterexample: `handle_params` mutates the cell list shared with its
caller: with a parser that finds a parameter, the list of the caller loses its
first code cell, so not every filter function leaves caller state unchanged. -/
theorem handle_params_mutates_shared_cells :
    (handle_params oneParamDocstringEnv [{ cell_type := "code", source := "d" }]).2
      ≠ [{ cell_type := "code", source := "d" }] := by
  decide

/-- C10 amended: the only caller-shared mutation performed by the filter
functions (beyond process-local logging configuration) is `handle_params`
removing the first code cell from the cell list of the caller when the extracted
parameter string is non-empty; in every other case the list is unchanged. -/
theorem handle_params_only_shared_mutation (E : DocstringEnv)
    (cells : List NotebookNode) :
    (handle_params E cells).2 = cells ∨
    (∃ c, cells.find? is_code_cell = some c ∧
      (extract_docstring_and_param E c.source).params ≠ "" ∧
      (handle_params E cells).2 = cells.erase c) := by
  unfold handle_params
  rcases h : cells.find? is_code_cell with _ | c
  · exact Or.inl rfl
  · by_cases hp : (extract_docstring_and_param E c.source).params == ""
    · exact Or.inl (by simp [hp])
    · refine Or.inr ⟨c, rfl, by simpa using hp, by simp [hp]⟩
